import Mathlib

/-!
Verification development for the tothom Markdown-preview extension core
(src/tothom.ts). The `Tothom` class is embedded shallowly: the session map,
slug registry and configuration become an explicit state record, side effects
on host collaborators (webview panels, terminals, the file system) become an
explicit effect trace, and the helper modules that are not part of the file
under verification (utils, terminal, slugify) are modelled from the
specification where its words pin them down.
-/

namespace Tothom

/-- Configuration surface: read-only key lookup for colorScheme
("light" | "dark" | "auto") and bracketedPasteMode (boolean). -/
structure Config where
  colorScheme : String
  bracketedPasteMode : Bool
deriving DecidableEq, Repr

/-- Options passed to `vscode.window.createWebviewPanel` (the subset the
source sets at src/tothom.ts lines 39-46). -/
structure WebviewOptions where
  enableScripts : Bool
  enableFindWidget : Bool
  retainContextWhenHidden : Bool
  localResourceRoots : List String
deriving DecidableEq, Repr

/-- A live webview panel as the session map stores it: its identity, the
creation options, the currently displayed HTML, and whether the two callbacks
the source registers at creation (lines 47 and 50) are in place. -/
structure WebviewPanel where
  id : Nat
  options : WebviewOptions
  html : String
  disposeCallbackRemovesFromMap : Bool
  messageHandlerSubscribed : Bool
deriving DecidableEq, Repr

/-- One observable call into a host collaborator, in program order. -/
inductive Effect where
  | createPanel (title : String) (options : WebviewOptions)
  | reveal (panelId : Nat)
  | setHtml (panelId : Nat) (html : String)
  | installHeadingHook
  | clearSlugRegistry
  | readFile (resource : String)
  | findOrCreateTerminal (key : String)
  | sendText (key : String) (text : String) (execute : Bool)
  | showTerminal (key : String)
deriving DecidableEq, Repr

/-- The state owned by the `Tothom` class: `_config`, `_views` (the session
map, as an association list keyed by the normalized resource key) and
`_slugCount` (the slug registry), plus a counter providing fresh panel
identities. -/
structure TothomState where
  config : Config
  views : List (String × WebviewPanel)
  slugCount : List (String × Nat)
  nextPanelId : Nat
deriving DecidableEq, Repr

/-- `Map.get` on the session map. -/
def lookupView (views : List (String × WebviewPanel)) (key : String) :
    Option WebviewPanel :=
  match views with
  | [] => none
  | (k, p) :: rest => if k = key then some p else lookupView rest key

/-- `Map.set` on the session map: replace the entry if the key is present,
append otherwise. -/
def setView (views : List (String × WebviewPanel)) (key : String)
    (p : WebviewPanel) : List (String × WebviewPanel) :=
  match views with
  | [] => [(key, p)]
  | (k, q) :: rest =>
      if k = key then (k, p) :: rest else (k, q) :: setView rest key p

/-- `Map.get` on the slug registry. -/
def lookupCount (registry : List (String × Nat)) (key : String) : Option Nat :=
  match registry with
  | [] => none
  | (k, n) :: rest => if k = key then some n else lookupCount rest key

/-- `Map.set` on the slug registry. -/
def setCount (registry : List (String × Nat)) (key : String) (n : Nat) :
    List (String × Nat) :=
  match registry with
  | [] => [(key, n)]
  | (k, m) :: rest =>
      if k = key then (k, n) :: rest else (k, m) :: setCount rest key n

/-- Split a character list at every character satisfying `p` (separators are
consumed); always returns at least one, possibly empty, chunk. -/
def splitWhen (p : Char → Bool) : List Char → List (List Char)
  | [] => [[]]
  | c :: rest =>
      let r := splitWhen p rest
      if p c then [] :: r
      else
        match r with
        | [] => [[c]]
        | w :: ws => (c :: w) :: ws

/-- Interleave the separator character between the chunks. -/
def joinWith (sep : Char) : List (List Char) → List Char
  | [] => []
  | [w] => w
  | w :: ws => w ++ sep :: joinWith sep ws

/-- Modelled from the spec: `slugify` (src/slugify.ts is not under src/).
Spec 4.1: normalize heading text to a slug form, lowercase with whitespace
collapsed to separators; the exact character set is an implementation choice. -/
def slugify (raw : String) : String :=
  ⟨joinWith '-'
    (((splitWhen Char.isWhitespace raw.data).map
        (List.map Char.toLower)).filter (fun w => w ≠ []))⟩

/-- Modelled from the spec: `utils.resourceFromUri` (src/utils.ts is not under
src/). The spec's Document Identity is a normalized resource locator used as
the map key, with the invariant that two locators resolving to the same
resource normalize to equal keys; identities are therefore represented by that
normalized key directly. -/
def resourceFromUri (uri : String) : String := uri

/-- Modelled from the spec: `utils.resourceDir` (src/utils.ts is not under
src/) returns the source document directory, the base for relative
resolution. -/
def resourceDir (uri : String) : String :=
  ⟨joinWith '/' ((splitWhen (fun c => c = '/') uri.data).dropLast)⟩

/-- Modelled from the spec: `utils.resourceName` (src/utils.ts is not under
src/) returns the document name used in the panel title. -/
def resourceName (uri : String) : String :=
  ⟨(splitWhen (fun c => c = '/') uri.data).getLastD []⟩

/-- JavaScript truthiness of `Map.get` on the slug registry: `undefined` and
`0` are falsy, every other number is truthy. -/
def natOptionTruthy : Option Nat → Bool
  | some n => n != 0
  | none => false

/-- The `headingOpen` rendering hook (src/tothom.ts lines 163-183), reduced to
its effect on the slug registry and the id attribute attached to the heading
token: compute the base slug, consult the registry with a truthiness test,
either append an incremented counter or register the slug with count 0. -/
def headingOpen (registry : List (String × Nat)) (raw : String) :
    List (String × Nat) × String :=
  let slug := slugify raw
  let lastCount := lookupCount registry slug
  if natOptionTruthy lastCount then
    let incremented := lastCount.getD 0 + 1
    (setCount registry slug incremented, slug ++ "-" ++ toString incremented)
  else
    (setCount registry slug 0, slug)

/-- One render pass over the headings the Markdown engine feeds to the
installed `headingOpen` hook, in document order; returns the final registry
and the emitted heading ids. -/
def renderHeadings (registry : List (String × Nat)) (raws : List String) :
    List (String × Nat) × List String :=
  match raws with
  | [] => (registry, [])
  | raw :: rest =>
      let (registry1, slug) := headingOpen registry raw
      let (registry2, slugs) := renderHeadings registry1 rest
      (registry2, slug :: slugs)

/-- A fragment of the engine-produced HTML body, as the global-flag regex
`<img(.+)src="([^"]+)"` of `sanitizeHtmlLocalPaths` decomposes it: plain text
between matches, and matched img tags split into the captured attribute run
and the captured src value. The regex engine itself is host runtime, not
repository code; the repository contributes the pattern and the replacement
callback. -/
inductive HtmlPiece where
  | text (s : String)
  | imgTag (attrs : String) (src : String)
deriving DecidableEq, Repr

/-- A read failure of the host file-read capability (spec 7: ReadError). -/
inductive ReadError where
  | readError
deriving DecidableEq, Repr

/-- The host editor capabilities the class calls into, with the external
Markdown engine: `engineHeadings` is the heading-token stream the engine feeds
to the installed heading-open hook, `engineBody` the body HTML it produces,
already decomposed at the img-tag regex matches. -/
structure Host where
  extensionUri : String
  workspaceFolders : List String
  activeColorThemeDark : Bool
  cspSource : String
  nonce : String
  readFileContent : String → Except ReadError String
  asWebviewUri : String → String
  engineHeadings : String → List String
  engineBody : String → List HtmlPiece

/-- An interaction event received from the display surface. -/
structure InteractionEvent where
  command : String
  text : Option String
deriving DecidableEq, Repr

/-- JavaScript truthiness of `event.text`: `undefined` and the empty string
are falsy. -/
def strOptionTruthy : Option String → Bool
  | some s => s ≠ ""
  | none => false

/-- The query portion of a URL: everything after the first question mark. -/
def querySegment (text : String) : String :=
  match splitWhen (fun c => c = '?') text.data with
  | [] => ""
  | _ :: rest => ⟨joinWith '?' rest⟩

/-- The value of query parameter `nm`: the first `&`-separated binding whose
head is `nm=`, with that head removed. -/
def queryParam (query : String) (nm : String) : String :=
  match (splitWhen (fun c => c = '&') query.data).filter
      (fun p => List.isPrefixOf (nm.data ++ ['=']) p) with
  | [] => ""
  | p :: _ => ⟨p.drop (nm.data.length + 1)⟩

/-- The two query parameters of the interaction wire format. -/
structure ParsedQuery where
  code : String
  uri : String
deriving DecidableEq, Repr

/-- Modelled from the spec: `utils.parseUrl` (src/utils.ts is not under src/)
parses a URL and exposes its query parameters; per the wire format (spec 6)
the query carries the parameters `code` (encoded command token) and `uri`
(originating document identity). -/
def parseUrlQuery (text : String) : ParsedQuery :=
  let q := querySegment text
  { code := queryParam q "code", uri := queryParam q "uri" }

/-- Modelled from the spec: `terminal.decodeTerminalCommand` (src/terminal.ts
is not under src/). Spec 4.3 fixes only that decoding inverts encoding,
`decode (encode c) = c`, the token alphabet being an implementation choice;
the token is modelled as carrying the command text itself, so decoding
returns it. -/
def decodeTerminalCommand (token : String) : String := token

/-- `runInTerminal` (src/tothom.ts lines 150-161): find or create the terminal
keyed by the target document identity, decode the command, wrap it in a
bracketed-paste envelope when `bracketedPasteMode` is set, send it with
execute enabled, and show the terminal. -/
def runInTerminal (config : Config) (encodedCommand : String) (uri : String) :
    List Effect :=
  let key := uri
  let command := decodeTerminalCommand encodedCommand
  let command := if config.bracketedPasteMode then
      "\x1b[200~" ++ command ++ "\x1b[201~"
    else command
  [Effect.findOrCreateTerminal key, Effect.sendText key command true,
   Effect.showTerminal key]

/-- `handleEvent` (src/tothom.ts lines 137-148): a `link` command with a
truthy text payload is parsed as a URL and dispatched via `runInTerminal`;
everything else falls through the switch. `vscode.Uri.parse` followed by
`toString`, applied to the already-normalized identity string, is the
identity under the Document Identity model. -/
def handleEvent (config : Config) (event : InteractionEvent) : List Effect :=
  match event.command with
  | "link" =>
      if strOptionTruthy event.text then
        let query := parseUrlQuery (event.text.getD "")
        runInTerminal config query.code query.uri
      else []
  | _ => []

/-- `mediaFilePath` (src/tothom.ts lines 83-85): webview URI of a file in the
extension media directory. -/
def mediaFilePath (host : Host) (filePath : String) : String :=
  host.asWebviewUri (host.extensionUri ++ "/media/" ++ filePath)

/-- `src.startsWith('.')`. -/
def startsWithDot (s : String) : Bool :=
  match s.data with
  | [] => false
  | c :: _ => c = '.'

/-- Concatenation of a list of strings. -/
def strJoin : List String → String
  | [] => ""
  | s :: rest => s ++ strJoin rest

/-- The replacement callback of `sanitizeHtmlLocalPaths` (src/tothom.ts lines
89-92): an img src beginning with the relative-path marker is resolved against
the document base path and turned into a webview URI; any other src is kept. -/
def imgSrcReplacement (asWebviewUri : String → String)
    (uriBasePath attrs src : String) : String :=
  let newSrc := if startsWithDot src then
      asWebviewUri (uriBasePath ++ "/" ++ src)
    else src
  "<img" ++ attrs ++ "src=\"" ++ newSrc ++ "\""

/-- One piece of the replace pass: matched img tags go through the
replacement callback, the text between matches is kept. -/
def sanitizePiece (asWebviewUri : String → String) (uriBasePath : String) :
    HtmlPiece → String
  | .text s => s
  | .imgTag attrs src => imgSrcReplacement asWebviewUri uriBasePath attrs src

/-- `sanitizeHtmlLocalPaths` (src/tothom.ts lines 87-93): apply the
replacement callback to every img-tag match and keep the text between matches
unchanged. -/
def sanitizeHtmlLocalPaths (asWebviewUri : String → String) (uri : String)
    (pieces : List HtmlPiece) : String :=
  let uriBasePath := resourceDir uri
  strJoin (pieces.map (sanitizePiece asWebviewUri uriBasePath))

/-- `baseHref.endsWith('/')`. -/
def endsWithSlash (s : String) : Bool :=
  match s.data.getLast? with
  | some c => c = '/'
  | none => false

/-- The colorScheme switch of `renderHtmlContent` (src/tothom.ts lines
102-113): explicit light or dark override, otherwise follow the host's
active color theme. -/
def colorSchemeClass (host : Host) (config : Config) : String :=
  match config.colorScheme with
  | "light" => "tothom-light"
  | "dark" => "tothom-dark"
  | _ => if host.activeColorThemeDark then "tothom-dark" else "tothom-light"

/-- The content-security-policy meta tag of the wrapped document (src/tothom.ts
line 120), scoped to the webview csp source and the per-render nonce. -/
def cspMetaTag (host : Host) : String :=
  "<meta http-equiv=\"Content-Security-Policy\" content=\"default-src \x27none\x27; img-src \x27self\x27 data: https: http: blob: " ++
  host.cspSource ++
  "; media-src vscode-resource: https: data:; script-src \x27nonce-" ++
  host.nonce ++
  "\x27 https:; style-src \x27unsafe-inline\x27 " ++
  host.cspSource ++
  " https: data:; font-src " ++
  host.cspSource ++
  " https: data:; object-src \x27none\x27;\"/>"

/-- The base tag (src/tothom.ts line 99): href is the document directory with
a trailing separator appended when missing. -/
def baseTagFor (uri : String) : String :=
  "<base href=\"" ++ resourceDir uri ++
  (if endsWithSlash (resourceDir uri) then "" else "/") ++ "\"/>"

/-- The three stylesheet links of the head (src/tothom.ts lines 122-124). -/
def stylesheetLinks (host : Host) : String :=
  "<link rel=\"stylesheet\" href=\"" ++ mediaFilePath host "tothom.css" ++
  "\"/>\n      <link rel=\"stylesheet\" href=\"" ++
  mediaFilePath host "github-markdown.css" ++
  "\"/>\n      <link rel=\"stylesheet\" href=\"" ++
  mediaFilePath host "highlight-js.css" ++ "\"/>"

/-- The body open tag (src/tothom.ts line 128): theme class and the data-uri
attribute holding the document identity string. -/
def bodyOpenTag (host : Host) (config : Config) (uri : String) : String :=
  "<body class=\"tothom-body " ++ colorSchemeClass host config ++
  "\" data-uri=\"" ++ uri ++ "\">"

/-- The nonce-gated script tag referencing the extension script
(src/tothom.ts line 132). -/
def nonceScriptTag (host : Host) : String :=
  "<script nonce=\"" ++ host.nonce ++ "\" src=\"" ++
  mediaFilePath host "main.js" ++ "\"/>"

/-- `renderHtmlContent` (src/tothom.ts lines 95-135): wrap the sanitized body
in the full themed document, with the content-security-policy meta tag scoped
to the webview csp source, the per-render nonce gating the one inline script
reference, the base tag resolved to the document directory with a trailing
separator appended when missing, the stylesheet links, the theme body class
and the data-uri attribute. The TypeScript template literal becomes the
corresponding append chain, split at the named tags. -/
def renderHtmlContent (host : Host) (config : Config) (uri : String)
    (pieces : List HtmlPiece) : String :=
  let baseTag := baseTagFor uri
  let sanitizedHtmlContent := sanitizeHtmlLocalPaths host.asWebviewUri uri pieces
  "<!DOCTYPE html>\n    <html lang=\"en\">\n    <head>\n      <meta charset=\"UTF-8\"/>\n      <meta name=\"viewport\" content=\"width=device-width, initial-scale=1.0\"/>\n      " ++
  cspMetaTag host ++
  "\n      <title>Tothom Markdown Preview</title>\n      " ++
  stylesheetLinks host ++
  "\n      " ++
  baseTag ++
  "\n      <script defer=\"true\" src=\"https://use.fontawesome.com/releases/v5.3.1/js/all.js\"></script>\n    </head>\n    " ++
  bodyOpenTag host config uri ++
  "\n      <div class=\"tothom-content\">\n        " ++
  sanitizedHtmlContent ++
  "\n      </div>\n      " ++
  nonceScriptTag host ++
  "\n    </body>\n    </html>"

instance {ε α : Type} [DecidableEq ε] [DecidableEq α] :
    DecidableEq (Except ε α) := fun
  | .ok a, .ok b =>
      match decEq a b with
      | .isTrue h => .isTrue (congrArg Except.ok h)
      | .isFalse h => .isFalse (fun hh => h (Except.ok.inj hh))
  | .error a, .error b =>
      match decEq a b with
      | .isTrue h => .isTrue (congrArg Except.error h)
      | .isFalse h => .isFalse (fun hh => h (Except.error.inj hh))
  | .ok _, .error _ => .isFalse (fun hh => Except.noConfusion hh)
  | .error _, .ok _ => .isFalse (fun hh => Except.noConfusion hh)

/-- The outcome of one command: the class state afterwards, the host calls
made in order, and the returned value, or the propagated exception. -/
structure StepResult (α : Type) where
  state : TothomState
  effects : List Effect
  result : Except ReadError α

/-- `updatePreview` (src/tothom.ts lines 61-77): look the session up; if none
exists return undefined having touched nothing; otherwise install the heading
hook, clear the slug registry, read the source file (a ReadError propagates,
leaving the displayed HTML unassigned), render, and assign the result as the
webview HTML. -/
def updatePreview (host : Host) (st : TothomState) (uri : String) :
    StepResult (Option Nat) :=
  let resource := resourceFromUri uri
  match lookupView st.views resource with
  | none => ⟨st, [], .ok none⟩
  | some panel =>
      let st1 : TothomState := { st with slugCount := [] }
      let effs := [Effect.installHeadingHook, Effect.clearSlugRegistry,
                   Effect.readFile resource]
      match host.readFileContent resource with
      | .error e => ⟨st1, effs, .error e⟩
      | .ok content =>
          let registry :=
            (renderHeadings st1.slugCount (host.engineHeadings content)).1
          let htmlContent :=
            renderHtmlContent host st.config resource (host.engineBody content)
          let panel2 := { panel with html := htmlContent }
          let st2 := { st1 with
            views := setView st1.views resource panel2,
            slugCount := registry }
          ⟨st2, effs ++ [Effect.setHtml panel.id htmlContent],
           .ok (some panel.id)⟩

/-- `Map.delete` on the session map. -/
def removeView (views : List (String × WebviewPanel)) (key : String) :
    List (String × WebviewPanel) :=
  match views with
  | [] => []
  | (k, p) :: rest =>
      if k = key then rest else (k, p) :: removeView rest key

/-- The `onDidDispose` callback registered at panel creation (src/tothom.ts
line 47): delete the session entry for the captured resource key. -/
def disposeCallback (st : TothomState) (resource : String) : TothomState :=
  { st with views := removeView st.views resource }

/-- The options object passed to `createWebviewPanel` (src/tothom.ts lines
39-46): scripts enabled, find widget enabled, context retained while hidden,
and local resource roots listing only the extension URI (the computed
`localResourceRoots` variable of lines 34-37 is not what the call passes). -/
def createdPanelOptions (host : Host) : WebviewOptions :=
  { enableScripts := true, enableFindWidget := true,
    retainContextWhenHidden := true,
    localResourceRoots := [host.extensionUri] }

/-- The panel as stored after creation (src/tothom.ts lines 39-52): fresh
identity, the creation options, no HTML yet, the dispose callback of line 47
and the message subscription of line 50 in place. -/
def createdPanel (host : Host) (st : TothomState) : WebviewPanel :=
  { id := st.nextPanelId, options := createdPanelOptions host, html := "",
    disposeCallbackRemovesFromMap := true,
    messageHandlerSubscribed := true }

/-- `openPreview` (src/tothom.ts lines 25-59): reuse the existing session if
one is mapped to the resource key; otherwise create a panel (the computed
localResourceRoots list, which the source builds at lines 34-37 and then does
not pass, is reproduced as the unused binding it is there), register the
dispose callback, subscribe the message handler and store the session. Both
paths then update the preview and reveal the panel; the created webview is
returned only on the creation path. -/
def openPreview (host : Host) (st : TothomState) (uri : String) :
    StepResult (Option Nat) :=
  let resource := resourceFromUri uri
  match lookupView st.views resource with
  | some panel =>
      let u := updatePreview host st uri
      match u.result with
      | .error e => ⟨u.state, u.effects, .error e⟩
      | .ok _ => ⟨u.state, u.effects ++ [Effect.reveal panel.id], .ok none⟩
  | none =>
      let title := "Preview: " ++ resourceName resource
      let _localResourceRoots := host.extensionUri ::
        (match host.workspaceFolders with
         | [] => []
         | w :: _ => [w])
      let opts := createdPanelOptions host
      let panel := createdPanel host st
      let st1 := { st with
        views := setView st.views resource panel,
        nextPanelId := st.nextPanelId + 1 }
      let u := updatePreview host st1 uri
      match u.result with
      | .error e => ⟨u.state, Effect.createPanel title opts :: u.effects, .error e⟩
      | .ok _ =>
          ⟨u.state, Effect.createPanel title opts :: u.effects ++
            [Effect.reveal panel.id], .ok (some panel.id)⟩

/-- Number of session entries stored under a key. -/
def countViews (views : List (String × WebviewPanel)) (key : String) : Nat :=
  (views.filter (fun p => p.1 = key)).length

theorem strJoin_append (a b : List String) :
    strJoin (a ++ b) = strJoin a ++ strJoin b := by
  induction a with
  | nil => simp [strJoin, String.empty_append]
  | cons s rest ih => simp [strJoin, ih, String.append_assoc]

theorem lookupView_setView_self (views : List (String × WebviewPanel))
    (key : String) (p : WebviewPanel) :
    lookupView (setView views key p) key = some p := by
  induction views with
  | nil => simp [setView, lookupView]
  | cons hd rest ih =>
      by_cases h : hd.1 = key
      · simp [setView, lookupView, h]
      · simp [setView, lookupView, h, ih]

theorem setView_setView (views : List (String × WebviewPanel)) (key : String)
    (p q : WebviewPanel) :
    setView (setView views key p) key q = setView views key q := by
  induction views with
  | nil => simp [setView]
  | cons hd rest ih =>
      by_cases h : hd.1 = key
      · simp [setView, h]
      · simp [setView, h, ih]

theorem countViews_eq_zero_of_lookup_none
    (views : List (String × WebviewPanel)) (key : String)
    (h : lookupView views key = none) : countViews views key = 0 := by
  induction views with
  | nil => simp [countViews]
  | cons hd rest ih =>
      by_cases hk : hd.1 = key
      · simp [lookupView, hk] at h
      · simp [lookupView, hk] at h
        simpa [countViews, List.filter, hk] using ih h

theorem countViews_setView_of_none
    (views : List (String × WebviewPanel)) (key : String) (p : WebviewPanel)
    (h : lookupView views key = none) :
    countViews (setView views key p) key = 1 := by
  induction views with
  | nil => simp [setView, countViews, List.filter]
  | cons hd rest ih =>
      by_cases hk : hd.1 = key
      · simp [lookupView, hk] at h
      · simp [lookupView, hk] at h
        simpa [setView, countViews, List.filter, hk] using ih h

theorem countViews_setView_of_some
    (views : List (String × WebviewPanel)) (key : String) (p q : WebviewPanel)
    (h : lookupView views key = some q) :
    countViews (setView views key p) key = countViews views key := by
  induction views with
  | nil => simp [lookupView] at h
  | cons hd rest ih =>
      by_cases hk : hd.1 = key
      · simp [setView, countViews, List.filter, hk]
      · simp [lookupView, hk] at h
        simpa [setView, countViews, List.filter, hk] using ih h

theorem updatePreview_none (host : Host) (st : TothomState) (uri : String)
    (h : lookupView st.views (resourceFromUri uri) = none) :
    updatePreview host st uri = ⟨st, [], .ok none⟩ := by
  simp [updatePreview, h]

theorem updatePreview_readFail (host : Host) (st : TothomState) (uri : String)
    (panel : WebviewPanel) (e : ReadError)
    (hv : lookupView st.views (resourceFromUri uri) = some panel)
    (hr : host.readFileContent (resourceFromUri uri) = .error e) :
    updatePreview host st uri =
      ⟨{ st with slugCount := [] },
       [Effect.installHeadingHook, Effect.clearSlugRegistry,
        Effect.readFile (resourceFromUri uri)],
       .error e⟩ := by
  simp [updatePreview, hv, hr]

theorem updatePreview_found (host : Host) (st : TothomState) (uri : String)
    (panel : WebviewPanel) (content : String)
    (hv : lookupView st.views (resourceFromUri uri) = some panel)
    (hr : host.readFileContent (resourceFromUri uri) = .ok content) :
    updatePreview host st uri =
      ⟨{ st with
          views := (setView st.views (resourceFromUri uri)
            { panel with html := (renderHtmlContent host st.config (resourceFromUri uri) (host.engineBody content)) }),
          slugCount := ((renderHeadings [] (host.engineHeadings content)).1) },
       [Effect.installHeadingHook, Effect.clearSlugRegistry,
        Effect.readFile (resourceFromUri uri),
        Effect.setHtml panel.id (renderHtmlContent host st.config
          (resourceFromUri uri) (host.engineBody content))],
       .ok (some panel.id)⟩ := by
  simp [updatePreview, hv, hr]

theorem openPreview_found_ok (host : Host) (st : TothomState) (uri : String)
    (panel : WebviewPanel) (content : String)
    (hv : lookupView st.views (resourceFromUri uri) = some panel)
    (hr : host.readFileContent (resourceFromUri uri) = .ok content) :
    openPreview host st uri =
      ⟨(updatePreview host st uri).state,
       (updatePreview host st uri).effects ++ [Effect.reveal panel.id],
       .ok none⟩ := by
  have hu := updatePreview_found host st uri panel content hv hr
  simp [openPreview, hv, hu]

theorem openPreview_fresh_ok (host : Host) (st : TothomState) (uri : String)
    (content : String)
    (hv : lookupView st.views (resourceFromUri uri) = none)
    (hr : host.readFileContent (resourceFromUri uri) = .ok content) :
    openPreview host st uri =
      ⟨{ st with
          views := (setView st.views (resourceFromUri uri)
            { createdPanel host st with html := (renderHtmlContent host st.config (resourceFromUri uri) (host.engineBody content)) }),
          slugCount := ((renderHeadings [] (host.engineHeadings content)).1),
          nextPanelId := st.nextPanelId + 1 },
       [Effect.createPanel ("Preview: " ++ resourceName (resourceFromUri uri))
          (createdPanelOptions host),
        Effect.installHeadingHook, Effect.clearSlugRegistry,
        Effect.readFile (resourceFromUri uri),
        Effect.setHtml st.nextPanelId (renderHtmlContent host st.config
          (resourceFromUri uri) (host.engineBody content)),
        Effect.reveal st.nextPanelId],
       .ok (some st.nextPanelId)⟩ := by
  have hv1 : lookupView
      (setView st.views (resourceFromUri uri) (createdPanel host st))
      (resourceFromUri uri) = some (createdPanel host st) :=
    lookupView_setView_self st.views (resourceFromUri uri) (createdPanel host st)
  have hu := updatePreview_found host
    { st with
      views := setView st.views (resourceFromUri uri) (createdPanel host st),
      nextPanelId := st.nextPanelId + 1 }
    uri (createdPanel host st) content hv1 hr
  simp only [openPreview, hv, hu, setView_setView]
  simp [createdPanel]

/-- A demonstration host: one workspace folder, a readable document, a
one-heading body. -/
def hostA : Host :=
  { extensionUri := "ext", workspaceFolders := ["ws0"],
    activeColorThemeDark := false, cspSource := "csp", nonce := "N",
    readFileContent := fun _ => .ok "# Intro",
    asWebviewUri := fun p => "webview://" ++ p,
    engineHeadings := fun _ => ["Intro"],
    engineBody := fun _ => [.text "<h1>Intro</h1>"] }

/-- The same host with a failing file read. -/
def hostErr : Host := { hostA with readFileContent := fun _ => .error .readError }

def cfgA : Config := { colorScheme := "auto", bracketedPasteMode := false }

/-- A fresh state: empty session map, empty registry. -/
def stA : TothomState :=
  { config := cfgA, views := [], slugCount := [], nextPanelId := 0 }

/-- A panel already holding displayed content. -/
def panelB : WebviewPanel :=
  { id := 0, options := createdPanelOptions hostA, html := "<p>old</p>",
    disposeCallbackRemovesFromMap := true, messageHandlerSubscribed := true }

/-- A state with one open session for file:///d/doc.md. -/
def stB : TothomState :=
  { config := cfgA, views := [("file:///d/doc.md", panelB)], slugCount := [],
    nextPanelId := 1 }

/-- C1: the claim says that within one render pass equal heading texts get
pairwise distinct ids, the first occurrence keeping the base slug and the
second receiving the base slug with "-1" appended and the incremented counter
stored back. The code refutes this: `headingOpen` registers the first
occurrence with counter 0, and the truthiness test `if (lastCount)` treats
that stored 0 exactly like an absent entry, so the second occurrence again
takes the else branch: both headings get the id "intro", the ids are not
pairwise distinct, and the registry still maps "intro" to 0. -/
theorem headingOpen_repeated_slug_ids_collide :
    (renderHeadings [] ["Intro", "Intro"]).2 = ["intro", "intro"] ∧
    ¬ List.Pairwise (fun a b => a ≠ b) (renderHeadings [] ["Intro", "Intro"]).2 ∧
    lookupCount (renderHeadings [] ["Intro", "Intro"]).1 "intro" = some 0 := by
  decide

/-- C8: update on an identity with no open session returns undefined having
performed no mutation at all: the state (session map, slug registry) is
unchanged and no host call (hook installation, registry clear, file read,
content assignment) is made. -/
theorem updatePreview_no_session_noop (host : Host) (st : TothomState)
    (uri : String) (h : lookupView st.views (resourceFromUri uri) = none) :
    (updatePreview host st uri).result = .ok none ∧
    (updatePreview host st uri).state = st ∧
    (updatePreview host st uri).effects = [] := by
  rw [updatePreview_none host st uri h]
  exact ⟨rfl, rfl, rfl⟩

/-- Witness for C8 at a concrete fresh state. -/
theorem updatePreview_no_session_noop_witness :
    (updatePreview hostA stA "file:///d/doc.md").result = .ok none ∧
    (updatePreview hostA stA "file:///d/doc.md").state = stA ∧
    (updatePreview hostA stA "file:///d/doc.md").effects = [] :=
  updatePreview_no_session_noop hostA stA "file:///d/doc.md" (by decide)

/-- C5: when reading the source document fails, the render fails by
propagating the error, the session map (hence every displayed HTML) is left
unchanged, and no content assignment is made, so no empty-content fallback is
produced. -/
theorem updatePreview_read_error_propagates (host : Host) (st : TothomState)
    (uri : String) (panel : WebviewPanel) (e : ReadError)
    (hv : lookupView st.views (resourceFromUri uri) = some panel)
    (hr : host.readFileContent (resourceFromUri uri) = .error e) :
    (updatePreview host st uri).result = .error e ∧
    (updatePreview host st uri).state.views = st.views ∧
    (∀ i h, Effect.setHtml i h ∉ (updatePreview host st uri).effects) := by
  rw [updatePreview_readFail host st uri panel e hv hr]
  refine ⟨rfl, rfl, ?_⟩
  intro i h
  simp

/-- Witness for C5: a session is open and the read fails. -/
theorem updatePreview_read_error_propagates_witness :
    (updatePreview hostErr stB "file:///d/doc.md").result = .error .readError ∧
    (updatePreview hostErr stB "file:///d/doc.md").state.views = stB.views ∧
    (∀ i h, Effect.setHtml i h ∉ (updatePreview hostErr stB "file:///d/doc.md").effects) :=
  updatePreview_read_error_propagates hostErr stB "file:///d/doc.md" panelB
    .readError (by decide) (by decide)

/-- C9: every interaction event whose command is not link falls through the
switch: no terminal dispatch, no effect at all, no error. -/
theorem handleEvent_non_link_ignored (config : Config)
    (event : InteractionEvent) (h : event.command ≠ "link") :
    handleEvent config event = [] := by
  obtain ⟨cmd, txt⟩ := event
  simp only at h
  simp only [handleEvent, h]

/-- Witness for C9 at a concrete unrecognized command. -/
theorem handleEvent_non_link_ignored_witness :
    handleEvent cfgA { command := "open", text := some "x" } = [] :=
  handleEvent_non_link_ignored cfgA { command := "open", text := some "x" }
    (by decide)

/-- C3: a link event with a truthy text payload is parsed as a URL query, the
code and uri parameters are extracted, the command is decoded, wrapped in the
bracketed-paste envelope exactly when bracketedPasteMode is set, sent with
execute enabled to the terminal keyed by the target document identity string,
and that terminal is then shown. -/
theorem handleEvent_link_dispatch (config : Config) (event : InteractionEvent)
    (t : String) (hcmd : event.command = "link") (htext : event.text = some t)
    (hne : t ≠ "") :
    handleEvent config event =
      [Effect.findOrCreateTerminal (parseUrlQuery t).uri,
       Effect.sendText (parseUrlQuery t).uri
         (if config.bracketedPasteMode then
            "\x1b[200~" ++ decodeTerminalCommand (parseUrlQuery t).code ++ "\x1b[201~"
          else decodeTerminalCommand (parseUrlQuery t).code) true,
       Effect.showTerminal (parseUrlQuery t).uri] := by
  obtain ⟨cmd, txt⟩ := event
  simp only at hcmd htext
  subst hcmd
  subst htext
  simp [handleEvent, strOptionTruthy, hne, runInTerminal]

/-- Witness for C3: concrete link event with bracketed paste enabled. -/
theorem handleEvent_link_dispatch_witness :
    handleEvent { colorScheme := "auto", bracketedPasteMode := true }
      { command := "link", text := some "cmd:run?code=abc&uri=u" } =
      [Effect.findOrCreateTerminal "u",
       Effect.sendText "u" "\x1b[200~abc\x1b[201~" true,
       Effect.showTerminal "u"] := by
  rw [handleEvent_link_dispatch { colorScheme := "auto", bracketedPasteMode := true }
    { command := "link", text := some "cmd:run?code=abc&uri=u" }
    "cmd:run?code=abc&uri=u" rfl rfl (by decide)]
  decide

theorem openPreview_found_spec (host : Host) (st : TothomState)
    (uri : String) (panel : WebviewPanel) (content : String)
    (hv : lookupView st.views (resourceFromUri uri) = some panel)
    (hr : host.readFileContent (resourceFromUri uri) = .ok content) :
    (openPreview host st uri).state.views =
      setView st.views (resourceFromUri uri)
        { panel with html := (renderHtmlContent host st.config (resourceFromUri uri) (host.engineBody content)) } ∧
    Effect.reveal panel.id ∈ (openPreview host st uri).effects ∧
    (∃ h, Effect.setHtml panel.id h ∈ (openPreview host st uri).effects) ∧
    (∀ t o, Effect.createPanel t o ∉ (openPreview host st uri).effects) ∧
    (openPreview host st uri).result = .ok none := by
  rw [openPreview_found_ok host st uri panel content hv hr,
      updatePreview_found host st uri panel content hv hr]
  refine ⟨rfl, by simp,
    ⟨renderHtmlContent host st.config (resourceFromUri uri)
      (host.engineBody content), by simp⟩, ?_, rfl⟩
  intro t o
  simp

theorem openPreview_fresh_spec (host : Host) (st : TothomState)
    (uri content : String)
    (hv : lookupView st.views (resourceFromUri uri) = none)
    (hr : host.readFileContent (resourceFromUri uri) = .ok content) :
    (openPreview host st uri).state.views =
      setView st.views (resourceFromUri uri)
        { createdPanel host st with html := (renderHtmlContent host st.config (resourceFromUri uri) (host.engineBody content)) } ∧
    (openPreview host st uri).state.config = st.config ∧
    Effect.reveal st.nextPanelId ∈ (openPreview host st uri).effects ∧
    (∃ h, Effect.setHtml st.nextPanelId h ∈ (openPreview host st uri).effects) ∧
    (openPreview host st uri).result = .ok (some st.nextPanelId) := by
  rw [openPreview_fresh_ok host st uri content hv hr]
  exact ⟨rfl, rfl, by simp,
    ⟨renderHtmlContent host st.config (resourceFromUri uri)
      (host.engineBody content), by simp⟩, rfl⟩

/-- C2: opening the same document identity twice in a row leaves exactly one
session entry under that key, the second call creates no display surface, and
both calls set the surface content and bring the surface to front. The
identity is the normalized resource key (spec-modelled
`resourceFromUri`). -/
theorem openPreview_twice_single_session (host : Host) (st : TothomState)
    (uri content : String)
    (hv : lookupView st.views (resourceFromUri uri) = none)
    (hr : host.readFileContent (resourceFromUri uri) = .ok content) :
    countViews (openPreview host (openPreview host st uri).state uri).state.views
      (resourceFromUri uri) = 1 ∧
    (∃ i, Effect.reveal i ∈ (openPreview host st uri).effects) ∧
    (∃ i h, Effect.setHtml i h ∈ (openPreview host st uri).effects) ∧
    (∃ i, Effect.reveal i ∈
      (openPreview host (openPreview host st uri).state uri).effects) ∧
    (∃ i h, Effect.setHtml i h ∈
      (openPreview host (openPreview host st uri).state uri).effects) ∧
    (∀ t o, Effect.createPanel t o ∉
      (openPreview host (openPreview host st uri).state uri).effects) := by
  obtain ⟨hviews1, _, hrev1, hset1, _⟩ :=
    openPreview_fresh_spec host st uri content hv hr
  have hv2 : lookupView (openPreview host st uri).state.views
      (resourceFromUri uri) =
      some { createdPanel host st with html := (renderHtmlContent host st.config (resourceFromUri uri) (host.engineBody content)) } := by
    rw [hviews1]
    exact lookupView_setView_self _ _ _
  obtain ⟨hviews2, hrev2, hset2, hnocreate2, _⟩ :=
    openPreview_found_spec host (openPreview host st uri).state uri
      { createdPanel host st with html := (renderHtmlContent host st.config (resourceFromUri uri) (host.engineBody content)) }
      content hv2 hr
  refine ⟨?_, ⟨st.nextPanelId, hrev1⟩, ?_, ?_, ?_, hnocreate2⟩
  · rw [hviews2,
      countViews_setView_of_some _ _ _ _ hv2, hviews1,
      countViews_setView_of_none st.views (resourceFromUri uri) _ hv]
  · obtain ⟨h, hm⟩ := hset1
    exact ⟨st.nextPanelId, h, hm⟩
  · exact ⟨_, hrev2⟩
  · obtain ⟨h, hm⟩ := hset2
    exact ⟨_, h, hm⟩

/-- Witness for C2 at a concrete fresh state and readable document. -/
theorem openPreview_twice_single_session_witness :
    countViews (openPreview hostA (openPreview hostA stA "file:///d/doc.md").state
      "file:///d/doc.md").state.views "file:///d/doc.md" = 1 ∧
    (∃ i, Effect.reveal i ∈ (openPreview hostA stA "file:///d/doc.md").effects) :=
  ⟨(openPreview_twice_single_session hostA stA "file:///d/doc.md" "# Intro"
      (by decide) (by decide)).1,
   (openPreview_twice_single_session hostA stA "file:///d/doc.md" "# Intro"
      (by decide) (by decide)).2.1⟩

/-- C10: openPreview returns the created webview exactly when no session
existed: on a fresh identity the result is the new panel identity (which is
then mapped under the key, content rendered); on an existing session the
call still sets the content and reveals that panel but returns undefined. -/
theorem openPreview_returns_webview_iff_fresh (host : Host) (st : TothomState)
    (uri content : String)
    (hr : host.readFileContent (resourceFromUri uri) = .ok content) :
    (lookupView st.views (resourceFromUri uri) = none →
      (openPreview host st uri).result = .ok (some st.nextPanelId) ∧
      lookupView (openPreview host st uri).state.views (resourceFromUri uri) =
        some { createdPanel host st with html := (renderHtmlContent host st.config (resourceFromUri uri) (host.engineBody content)) }) ∧
    (∀ panel, lookupView st.views (resourceFromUri uri) = some panel →
      (openPreview host st uri).result = .ok none ∧
      Effect.reveal panel.id ∈ (openPreview host st uri).effects ∧
      (∃ h, Effect.setHtml panel.id h ∈ (openPreview host st uri).effects)) := by
  constructor
  · intro hv
    rw [openPreview_fresh_ok host st uri content hv hr]
    exact ⟨rfl, lookupView_setView_self _ _ _⟩
  · intro panel hv
    rw [openPreview_found_ok host st uri panel content hv hr,
      updatePreview_found host st uri panel content hv hr]
    exact ⟨rfl, by simp,
      renderHtmlContent host st.config (resourceFromUri uri)
        (host.engineBody content), by simp⟩

/-- Witness for C10: fresh identity returns the new webview, reopening
returns undefined. -/
theorem openPreview_returns_webview_iff_fresh_witness :
    (openPreview hostA stA "file:///d/doc.md").result = .ok (some 0) ∧
    (openPreview hostA stB "file:///d/doc.md").result = .ok none :=
  ⟨((openPreview_returns_webview_iff_fresh hostA stA "file:///d/doc.md"
      "# Intro" (by decide)).1 (by decide)).1,
   ((openPreview_returns_webview_iff_fresh hostA stB "file:///d/doc.md"
      "# Intro" (by decide)).2 panelB (by decide)).1⟩

/-- C6: in the sanitized HTML every img match reappears with its attributes
intact and its src equal to the webview form of the document-directory
resolution exactly when the src begins with the relative-path marker, and
equal to the original src otherwise; in particular a src not beginning with
a dot passes through the replacement callback completely unchanged. -/
theorem sanitizeHtml_rewrites_img_src_iff_relative
    (asWebviewUri : String → String) (uri : String) (pieces : List HtmlPiece)
    (attrs src : String) (hmem : HtmlPiece.imgTag attrs src ∈ pieces) :
    (∃ pre post, sanitizeHtmlLocalPaths asWebviewUri uri pieces =
      pre ++ ("<img" ++ attrs ++ "src=\"" ++
        (if startsWithDot src then asWebviewUri (resourceDir uri ++ "/" ++ src)
         else src) ++ "\"") ++ post) ∧
    (startsWithDot src = false →
      imgSrcReplacement asWebviewUri (resourceDir uri) attrs src =
        "<img" ++ attrs ++ "src=\"" ++ src ++ "\"") := by
  constructor
  · obtain ⟨l1, l2, rfl⟩ := List.append_of_mem hmem
    exact ⟨strJoin (l1.map (sanitizePiece asWebviewUri (resourceDir uri))),
      strJoin (l2.map (sanitizePiece asWebviewUri (resourceDir uri))),
      by simp [sanitizeHtmlLocalPaths, sanitizePiece, imgSrcReplacement,
        strJoin_append, strJoin, String.append_assoc]⟩
  · intro h
    simp [imgSrcReplacement, h]

/-- Witness for C6: one relative and one absolute src. -/
theorem sanitizeHtml_rewrites_img_src_iff_relative_witness :
    ((∃ pre post, sanitizeHtmlLocalPaths hostA.asWebviewUri "file:///d/doc.md"
      [HtmlPiece.imgTag " " "./img/a.png", HtmlPiece.imgTag " " "https://x/y.png"] =
      pre ++ ("<img" ++ " " ++ "src=\"" ++
        (if startsWithDot "./img/a.png" then
          hostA.asWebviewUri (resourceDir "file:///d/doc.md" ++ "/" ++ "./img/a.png")
         else "./img/a.png") ++ "\"") ++ post)) ∧
    (startsWithDot "https://x/y.png" = false →
      imgSrcReplacement hostA.asWebviewUri (resourceDir "file:///d/doc.md")
        " " "https://x/y.png" =
        "<img" ++ " " ++ "src=\"" ++ "https://x/y.png" ++ "\"") :=
  ⟨(sanitizeHtml_rewrites_img_src_iff_relative hostA.asWebviewUri
      "file:///d/doc.md"
      [HtmlPiece.imgTag " " "./img/a.png", HtmlPiece.imgTag " " "https://x/y.png"]
      " " "./img/a.png" (by simp)).1,
   (sanitizeHtml_rewrites_img_src_iff_relative hostA.asWebviewUri
      "file:///d/doc.md"
      [HtmlPiece.imgTag " " "./img/a.png", HtmlPiece.imgTag " " "https://x/y.png"]
      " " "https://x/y.png" (by simp)).2⟩

/-- C7: every rendered document contains the content-security-policy meta
tag, the nonce-gated script tag, the base tag whose href is the document
directory with a trailing separator appended when missing, and the body open
tag carrying the theme class and the data-uri identity attribute; the theme
class is the light variant on the "light" setting, the dark variant on
"dark", and otherwise follows the host's active color theme. -/
theorem renderHtmlContent_contract (host : Host) (config : Config)
    (uri : String) (pieces : List HtmlPiece) :
    (∃ a b, renderHtmlContent host config uri pieces =
      a ++ cspMetaTag host ++ b) ∧
    (∃ a b, renderHtmlContent host config uri pieces =
      a ++ nonceScriptTag host ++ b) ∧
    ((∃ a b, renderHtmlContent host config uri pieces =
      a ++ baseTagFor uri ++ b) ∧
      baseTagFor uri = "<base href=\"" ++ resourceDir uri ++
        (if endsWithSlash (resourceDir uri) then "" else "/") ++ "\"/>") ∧
    ((∃ a b, renderHtmlContent host config uri pieces =
      a ++ bodyOpenTag host config uri ++ b) ∧
      bodyOpenTag host config uri =
        "<body class=\"tothom-body " ++ colorSchemeClass host config ++
        "\" data-uri=\"" ++ uri ++ "\">") ∧
    (config.colorScheme = "light" →
      colorSchemeClass host config = "tothom-light") ∧
    (config.colorScheme = "dark" →
      colorSchemeClass host config = "tothom-dark") ∧
    (config.colorScheme ≠ "light" → config.colorScheme ≠ "dark" →
      colorSchemeClass host config =
        (if host.activeColorThemeDark then "tothom-dark" else "tothom-light")) := by
  refine ⟨?_, ?_, ?_, ?_, ?_, ?_, ?_⟩
  · exact ⟨"<!DOCTYPE html>\n    <html lang=\"en\">\n    <head>\n      <meta charset=\"UTF-8\"/>\n      <meta name=\"viewport\" content=\"width=device-width, initial-scale=1.0\"/>\n      ",
      "\n      <title>Tothom Markdown Preview</title>\n      " ++
        stylesheetLinks host ++ "\n      " ++ baseTagFor uri ++
        "\n      <script defer=\"true\" src=\"https://use.fontawesome.com/releases/v5.3.1/js/all.js\"></script>\n    </head>\n    " ++
        bodyOpenTag host config uri ++
        "\n      <div class=\"tothom-content\">\n        " ++
        sanitizeHtmlLocalPaths host.asWebviewUri uri pieces ++
        "\n      </div>\n      " ++ nonceScriptTag host ++
        "\n    </body>\n    </html>",
      by simp [renderHtmlContent, String.append_assoc]⟩
  · exact ⟨"<!DOCTYPE html>\n    <html lang=\"en\">\n    <head>\n      <meta charset=\"UTF-8\"/>\n      <meta name=\"viewport\" content=\"width=device-width, initial-scale=1.0\"/>\n      " ++
        cspMetaTag host ++
        "\n      <title>Tothom Markdown Preview</title>\n      " ++
        stylesheetLinks host ++ "\n      " ++ baseTagFor uri ++
        "\n      <script defer=\"true\" src=\"https://use.fontawesome.com/releases/v5.3.1/js/all.js\"></script>\n    </head>\n    " ++
        bodyOpenTag host config uri ++
        "\n      <div class=\"tothom-content\">\n        " ++
        sanitizeHtmlLocalPaths host.asWebviewUri uri pieces ++
        "\n      </div>\n      ",
      "\n    </body>\n    </html>",
      by simp [renderHtmlContent, String.append_assoc]⟩
  · refine ⟨⟨"<!DOCTYPE html>\n    <html lang=\"en\">\n    <head>\n      <meta charset=\"UTF-8\"/>\n      <meta name=\"viewport\" content=\"width=device-width, initial-scale=1.0\"/>\n      " ++
        cspMetaTag host ++
        "\n      <title>Tothom Markdown Preview</title>\n      " ++
        stylesheetLinks host ++ "\n      ",
      "\n      <script defer=\"true\" src=\"https://use.fontawesome.com/releases/v5.3.1/js/all.js\"></script>\n    </head>\n    " ++
        bodyOpenTag host config uri ++
        "\n      <div class=\"tothom-content\">\n        " ++
        sanitizeHtmlLocalPaths host.asWebviewUri uri pieces ++
        "\n      </div>\n      " ++ nonceScriptTag host ++
        "\n    </body>\n    </html>",
      by simp [renderHtmlContent, String.append_assoc]⟩, rfl⟩
  · refine ⟨⟨"<!DOCTYPE html>\n    <html lang=\"en\">\n    <head>\n      <meta charset=\"UTF-8\"/>\n      <meta name=\"viewport\" content=\"width=device-width, initial-scale=1.0\"/>\n      " ++
        cspMetaTag host ++
        "\n      <title>Tothom Markdown Preview</title>\n      " ++
        stylesheetLinks host ++ "\n      " ++ baseTagFor uri ++
        "\n      <script defer=\"true\" src=\"https://use.fontawesome.com/releases/v5.3.1/js/all.js\"></script>\n    </head>\n    ",
      "\n      <div class=\"tothom-content\">\n        " ++
        sanitizeHtmlLocalPaths host.asWebviewUri uri pieces ++
        "\n      </div>\n      " ++ nonceScriptTag host ++
        "\n    </body>\n    </html>",
      by simp [renderHtmlContent, String.append_assoc]⟩, rfl⟩
  · intro h
    simp [colorSchemeClass, h]
  · intro h
    simp [colorSchemeClass, h]
  · intro h1 h2
    unfold colorSchemeClass
    split <;> simp_all

/-- Witness for C7: the three theme-class cases at a concrete host. -/
theorem renderHtmlContent_contract_witness :
    colorSchemeClass hostA { colorScheme := "light", bracketedPasteMode := false } = "tothom-light" ∧
    colorSchemeClass hostA { colorScheme := "dark", bracketedPasteMode := false } = "tothom-dark" ∧
    colorSchemeClass hostA { colorScheme := "auto", bracketedPasteMode := false } = "tothom-light" :=
  ⟨(renderHtmlContent_contract hostA
      { colorScheme := "light", bracketedPasteMode := false } "u" []).2.2.2.2.1 rfl,
   (renderHtmlContent_contract hostA
      { colorScheme := "dark", bracketedPasteMode := false } "u" []).2.2.2.2.2.1 rfl,
   (renderHtmlContent_contract hostA
      { colorScheme := "auto", bracketedPasteMode := false } "u" []).2.2.2.2.2.2
      (by decide) (by decide)⟩

/-- C4: the claim says a newly created surface restricts local resource
access to the extension assets and, when a workspace root is present, the
first workspace root. The code refutes the workspace-root part: with a
workspace folder present, the createWebviewPanel call still receives
localResourceRoots containing only the extension URI, because the call at
src/tothom.ts line 43 passes `[this._extensionUri]` rather than the
localResourceRoots variable computed at lines 34-37; the workspace root is
absent from the options. The rest of the claim holds: scripts enabled,
context retained while hidden, dispose callback and interaction subscription
registered. -/
theorem openPreview_created_options_omit_workspace_root :
    (openPreview hostA stA "file:///d/doc.md").effects.head? =
      some (Effect.createPanel "Preview: doc.md" (createdPanelOptions hostA)) ∧
    (createdPanelOptions hostA).enableScripts = true ∧
    (createdPanelOptions hostA).retainContextWhenHidden = true ∧
    (createdPanelOptions hostA).localResourceRoots = ["ext"] ∧
    hostA.workspaceFolders = ["ws0"] ∧
    "ws0" ∉ (createdPanelOptions hostA).localResourceRoots ∧
    ((lookupView (openPreview hostA stA "file:///d/doc.md").state.views
        "file:///d/doc.md").map (fun p =>
          (p.disposeCallbackRemovesFromMap, p.messageHandlerSubscribed))) =
      some (true, true) := by
  decide

end Tothom
